import Mathlib

/-!
Shallow embedding of the lcd-core miner-fleet orchestration library
(src/miner/entry.rs, src/miner/ant.rs, src/miner/avalon.rs, src/error.rs)
together with theorems settling the frozen specification claims.

Conventions:
* Rust machine integers are modelled as `Int`/`Nat` (no overflow is relevant
  to any claim).
* Rust `Result<T, MinerError>` together with possible panics is modelled by
  `RustResult`: `ok`, `err`, or `panicked` (a Rust `panic!` / `unwrap` /
  out-of-bounds-index abort).
* Wall-clock times of day are seconds since midnight (`Nat`; the code
  compares `chrono::NaiveTime` values, an order-isomorphic comparison).
* Network I/O is modelled by explicit event traces / outcome oracles.
-/

namespace LcdCore

/-- Subset of `MinerError` (src/error.rs) reachable in the embedded code
paths; the transparent wrappers carry the wrapped error's text. -/
inductive MinerError where
  | MinerNotSupportError
  | HttpError
  | AuthError
  | ReadAvalonConfigError
  | FeishuParserJsonError
  | ReadTimeConfigError
  | TcpReadError
  | PingFiledError
  | JsonParseError : String → MinerError
  | CurlError : String → MinerError
  | FromUtf8Error : String → MinerError
  | JoinError : String → MinerError
  | StdIoError : String → MinerError
deriving DecidableEq

/-- Outcome of a Rust computation: a value, a typed error, or a process
abort (a `panic!`, an `unwrap` on `None`/`Err`, an out-of-bounds index). -/
inductive RustResult (α : Type) where
  | ok : α → RustResult α
  | err : MinerError → RustResult α
  | panicked : String → RustResult α
deriving DecidableEq

def RustResult.map {α β : Type} (f : α → β) : RustResult α → RustResult β
  | .ok a => .ok (f a)
  | .err e => .err e
  | .panicked m => .panicked m

/-- Account (src/miner/entry.rs lines 122-131). -/
structure Account where
  id : Int
  name : String
  password : String
  pool1 : String
  pool2 : String
  pool3 : String
  run_mode : String
deriving DecidableEq

/-- PoolConfig (src/miner/entry.rs lines 133-138). -/
structure PoolConfig where
  url : String
  user : String
  password : String
deriving DecidableEq

/-- MinerStatus (src/miner/entry.rs lines 78-83). -/
inductive MinerStatus where
  | Online
  | Offline
deriving DecidableEq

/-- Machine (src/miner/entry.rs lines 94-105). -/
structure Machine where
  id : Int
  account_id : Int
  ip : String
  name : String
  status : MinerStatus
  account : Account
  switch_account : Option Account
  addition_info : String
  run_mode : String
deriving DecidableEq

/-- MinerType variants (src/miner/entry.rs lines 19-24); the payload
structs `AntMiner` / `AvalonMiner` / `BlueStarMiner` are empty in the
source, so the tags carry no payload here. -/
inductive MinerType where
  | Ant
  | Avalon
  | BlueStar
deriving DecidableEq

/-- Model of Rust `str::contains(pat)`: some index of `s` starts the
byte-wise (here `Char`-wise) pattern `pat`. -/
def str_contains (s pat : String) : Bool :=
  (List.range (s.toList.length + 1)).any
    (fun i => (s.toList.drop i).take pat.toList.length = pat.toList)

/-- Splitting a character list at a separator, keeping empty segments:
the semantics of Rust `str::split(sep)` (always at least one segment). -/
def split_chars (sep : Char) : List Char → List (List Char)
  | [] => [[]]
  | c :: rest =>
      let r := split_chars sep rest
      if c = sep then [] :: r
      else
        match r with
        | [] => [[c]]
        | h :: t => (c :: h) :: t

/-- Model of Rust `ip.split('.').collect::<Vec<&str>>()`. -/
def split_dots (s : String) : List String :=
  (split_chars '.' s.toList).map (fun cs => String.mk cs)

/-- `impl From<&str> for MinerType` (src/miner/entry.rs lines 27-36): the
three known vendor names map to their variants; every other string hits
`panic!("MinerType not support")`. -/
def minerType_from_str (s : String) : RustResult MinerType :=
  if s = "ant" then .ok .Ant
  else if s = "avalon" then .ok .Avalon
  else if s = "bluestar" then .ok .BlueStar
  else .panicked "MinerType not support"

/-- AntMiner::detect (src/miner/ant.rs lines 131-143): error when no
headers; otherwise Ant iff some header contains "antMiner". -/
def AntMiner.detect (headers : List String) (_body : String) :
    Except MinerError MinerType :=
  if headers.length < 1 then .error .MinerNotSupportError
  else if headers.any (fun h => str_contains h "antMiner") then .ok .Ant
  else .error .MinerNotSupportError

/-- AvalonMiner::detect (src/miner/avalon.rs lines 167-175): Avalon iff
the body contains "Avalon Device". -/
def AvalonMiner.detect (_headers : List String) (body : String) :
    Except MinerError MinerType :=
  if str_contains body "Avalon Device" then .ok .Avalon
  else .error .MinerNotSupportError

/-- BlueStarMiner::detect (src/miner/bluestar.rs): always fails. -/
def BlueStarMiner.detect (_headers : List String) (_body : String) :
    Except MinerError MinerType :=
  .error .MinerNotSupportError

/-- The detection loop of find_miner (src/miner/entry.rs lines 255-263):
try each vendor of MINERS in order, first Ok wins, otherwise
MinerNotSupportError. -/
def find_miner_detect (headers : List String) (body : String) :
    Except MinerError MinerType :=
  match AntMiner.detect headers body with
  | .ok m => .ok m
  | .error _ =>
    match AvalonMiner.detect headers body with
    | .ok m => .ok m
    | .error _ =>
      match BlueStarMiner.detect headers body with
      | .ok m => .ok m
      | .error _ => .error .MinerNotSupportError

/-- TimeConfig (src/miner/entry.rs lines 38-43); `start`/`endT` are the
`NaiveTime` fields `start`/`end` as seconds since midnight (`end` is a
Lean keyword). -/
structure TimeConfig where
  start : Nat
  endT : Nat
  account_type : String
deriving DecidableEq

/-- TimeConfig::now_account (src/miner/entry.rs lines 46-54): the window
matches `now_time` when `start < end ∧ start ≤ now ≤ end`, or when
`start > end ∧ (now ≥ start ∨ now ≤ end)` (wrap past midnight); on a match
it yields the window's `account_type`. `now_perf` (lines 66-74) is the
identical test. -/
def TimeConfig.now_account (c : TimeConfig) (now_time : Nat) : Option String :=
  if (c.start < c.endT ∧ now_time ≥ c.start ∧ now_time ≤ c.endT)
      ∨ (c.start > c.endT ∧ (now_time ≥ c.start ∨ now_time ≤ c.endT)) then
    some c.account_type
  else
    none

/-- The per-machine account selection and run-mode computation inside
switch_if_need (src/miner/entry.rs lines 539-562): for a machine with a
configured switch_account and Online status, the Account dispatched to
switch_account_if_diff; `none` when the machine is skipped.  The selected
base account is `machine.account` when the active account type is "main",
otherwise `machine.switch_account.unwrap()`; its run-mode is then set to
"高功" exactly when both the selected account's run-mode and the global
perf-mode are "高功", and to "普通" otherwise. -/
def switch_target (account_type perf_mode : String) (mach : Machine) :
    Option Account :=
  if mach.switch_account.isSome ∧ mach.status = MinerStatus.Online then
    let sa := if account_type = "main" then mach.account
              else mach.switch_account.getD mach.account
    if sa.run_mode = "高功" ∧ perf_mode = "高功" then
      some { sa with run_mode := "高功" }
    else
      some { sa with run_mode := "普通" }
  else
    none

/-- Joined per-task outcome as the batch aggregation loops see it:
`ok v` is `Ok(Ok(v))`, `opError e` is `Ok(Err(e))` (operation-level
failure), `joinError s` is `Err(join error)` (the spawned task itself
failed). -/
inductive TaskResult (α : Type) where
  | ok : α → TaskResult α
  | opError : MinerError → TaskResult α
  | joinError : String → TaskResult α
deriving DecidableEq

/-- The error_ips collection loop of switch_if_need (src/miner/entry.rs
lines 573-598): machines are walked in order against `result_iter`; a
successful switch contributes nothing; an operation-level error pushes the
key `"[" ++ ip ++ "-" ++ addition_info ++ "]"`; a join failure pushes
`"[" ++ ip ++ "-" ++ addition_info ++ "] "` (note the trailing space in
the source format string); a machine with no remaining result (iterator
exhausted) also pushes the trailing-space key. -/
def collect_error_ips : List Machine → List (TaskResult Unit) → List String
  | [], _ => []
  | _mach :: machs, .ok _ :: rs => collect_error_ips machs rs
  | mach :: machs, .opError _ :: rs =>
      ("[" ++ mach.ip ++ "-" ++ mach.addition_info ++ "]")
        :: collect_error_ips machs rs
  | mach :: machs, .joinError _ :: rs =>
      ("[" ++ mach.ip ++ "-" ++ mach.addition_info ++ "] ")
        :: collect_error_ips machs rs
  | mach :: machs, [] =>
      ("[" ++ mach.ip ++ "-" ++ mach.addition_info ++ "] ")
        :: collect_error_ips machs []

/-- Lookup in the shared ERR_MAP (a HashMap<String,i32>, modelled as an
association list), with the `entry(..).or_insert(0)` default of 0. -/
def err_lookup : List (String × Nat) → String → Nat
  | [], _ => 0
  | (k', v') :: rest, k => if k = k' then v' else err_lookup rest k

/-- Store a counter value in the ERR_MAP model, replacing any previous
binding for the key. -/
def err_insert : List (String × Nat) → String → Nat → List (String × Nat)
  | [], k, v => [(k, v)]
  | (k', v') :: rest, k, v =>
      if k' = k then (k, v) :: rest else (k', v') :: err_insert rest k v

/-- The body of the per-ip debounce step (src/miner/entry.rs lines
604-611): increment the ip's counter; once it reaches 3 (`*count >= 3`)
reset it to 0 and select the ip for the alert.  Returns the updated map
and whether the ip was selected. -/
def process_error_ip (m : List (String × Nat)) (ip : String) :
    List (String × Nat) × Bool :=
  let count := err_lookup m ip + 1
  if 3 ≤ count then (err_insert m ip 0, true)
  else (err_insert m ip count, false)

/-- The loop over error_ips (src/miner/entry.rs lines 604-611), threading
the map and accumulating selected_ips in order. -/
def process_error_ips :
    List (String × Nat) → List String → List (String × Nat) × List String
  | m, [] => (m, [])
  | m, ip :: rest =>
    let r := process_error_ip m ip
    let r' := process_error_ips r.1 rest
    (r'.1, if r.2 then ip :: r'.2 else r'.2)

/-- One switch cycle's whole debounce phase (src/miner/entry.rs lines
600-624): when this cycle produced failures, run the counter loop and
return the (possibly empty) selected_ips that go into the single alert
message; when error_ips is empty, the map is untouched and no alert is
considered. -/
def switch_cycle_debounce (m : List (String × Nat)) (error_ips : List String) :
    List (String × Nat) × List String :=
  if error_ips.length > 0 then process_error_ips m error_ips else (m, [])

/-- The success-collection loop shared by scan and watching
(src/miner/entry.rs lines 676-688 and 706-718): keep `Ok(Ok(v))` payloads
in order; operation errors and join errors are only logged. -/
def scan_collect {α : Type} : List (TaskResult α) → List α
  | [] => []
  | .ok v :: rest => v :: scan_collect rest
  | .opError _ :: rest => scan_collect rest
  | .joinError _ :: rest => scan_collect rest

/-- reboot_batch's aggregation (src/miner/entry.rs lines 723-732): the
joined per-ip results are bound to `_result` and discarded; the function
returns `Ok(())` unconditionally. -/
def reboot_batch_agg (results : List (TaskResult Unit)) : Except String Unit :=
  let _result := results
  Except.ok ()

/-- Pool entry of an Ant device config (src/miner/ant.rs lines 48-53). -/
structure Pool where
  url : String
  user : String
  pass : String
deriving DecidableEq

/-- AntConfig (src/miner/ant.rs lines 55-84): ordered pool list plus the
vendor tuning fields that must round-trip unmodified. -/
structure AntConfig where
  pools : List Pool
  api_listen : Bool
  api_network : Bool
  api_groups : String
  api_allow : String
  bitmain_fan_ctrl : Bool
  bitmain_fan_pwm : String
  bitmain_use_vil : Bool
  bitmain_freq : String
  bitmain_voltage : String
  bitmain_ccdelay : String
  bitmain_pwth : String
  bitmain_work_mode : String
  bitmain_freq_level : String
deriving DecidableEq

/-- AntConfig::is_same_account (src/miner/ant.rs lines 87-92): compare the
pre-dot segment of pool slot 1's user with the pre-dot segment of the
account name; indexing `self.pools[0]` panics on an empty pool list. -/
def AntConfig.is_same_account (conf : AntConfig) (account : Account) :
    RustResult Bool :=
  match conf.pools with
  | p0 :: _ =>
      .ok (((split_dots p0.user).headD "")
            = ((split_dots account.name).headD ""))
  | [] => .panicked "index out of bounds: pools"

/-- AntConfig::apply_account (src/miner/ant.rs lines 94-106): user is
`name ++ "." ++ octet3 ++ "x" ++ octet4`; slots 1..3 get `pool1`, `pool2`,
`pool2` as URLs (slot 3 reuses pool2), all with the same user/password.
Indexing `ip_splited[2]`/`[3]` panics when the ip has fewer than four
dot-separated parts; indexing `self.pools[0..2]` panics when the config
has fewer than three pools. -/
def AntConfig.apply_account (conf : AntConfig) (account : Account)
    (ip : String) : RustResult AntConfig :=
  match split_dots ip with
  | _ :: _ :: c :: d :: _ =>
    let user := account.name ++ "." ++ c ++ "x" ++ d
    match conf.pools with
    | p0 :: p1 :: p2 :: rest =>
        .ok { conf with pools :=
          { p0 with user := user, pass := account.password, url := account.pool1 }
          :: { p1 with user := user, pass := account.password, url := account.pool2 }
          :: { p2 with user := user, pass := account.password, url := account.pool2 }
          :: rest }
    | _ => .panicked "index out of bounds: pools"
  | _ => .panicked "index out of bounds: ip octets"

/-- The positional slot-update loop of AntConfig::apply_config_pools
(src/miner/ant.rs lines 110-115): slot i is overwritten from caller pool
i; config pools beyond the caller's list are kept; a caller list longer
than the config's pool list panics on the out-of-range index. -/
def apply_config_pools_loop (confPools : List Pool) (ps : List PoolConfig)
    (c d : String) : RustResult (List Pool) :=
  match ps, confPools with
  | [], rest => .ok rest
  | p :: ps', cp :: cps =>
      (apply_config_pools_loop cps ps' c d).map
        (fun rest =>
          { cp with user := p.user ++ "." ++ c ++ "x" ++ d,
                    pass := p.password, url := p.url } :: rest)
  | _ :: _, [] => .panicked "index out of bounds: pools"

/-- AntConfig::apply_config_pools (src/miner/ant.rs lines 108-116):
suffix each caller user with the IP tag and write the slots positionally. -/
def AntConfig.apply_config_pools (conf : AntConfig)
    (pools : List PoolConfig) (ip : String) : RustResult AntConfig :=
  match split_dots ip with
  | _ :: _ :: c :: d :: _ =>
      (apply_config_pools_loop conf.pools pools c d).map
        (fun ps => { conf with pools := ps })
  | _ => .panicked "index out of bounds: ip octets"

/-- AntMiner::switch_account_if_diff core (src/miner/ant.rs lines
145-167) with the fetched device config passed explicitly: when not
forced and the account matches, no config is written (`ok none`);
otherwise the applied config that is pushed and followed by a reboot
(`ok (some conf)`).  `!is_force` short-circuits, so `is_same_account` is
not evaluated on a forced switch. -/
def ant_switch_account_if_diff (conf : AntConfig) (account : Account)
    (ip : String) (is_force : Bool) : RustResult (Option AntConfig) :=
  if is_force then (conf.apply_account account ip).map some
  else
    match conf.is_same_account account with
    | .ok true => .ok none
    | .ok false => (conf.apply_account account ip).map some
    | .err e => .err e
    | .panicked m => .panicked m

/-- One read event seen by tcp_cmd's read loop (src/miner/avalon.rs lines
617-640): `chunk bs` is `Ok(bs.length)` delivering bytes `bs` (so
`chunk []` is `Ok(0)`, the peer closing); `wouldBlock` is an
`ErrorKind::WouldBlock` error (no data ready, which is also how a read
timeout surfaces); `fatal` is any other io error. -/
inductive ReadEvent where
  | chunk : List Nat → ReadEvent
  | wouldBlock : ReadEvent
  | fatal : String → ReadEvent
deriving DecidableEq

/-- The post-loop result of tcp_cmd (src/miner/avalon.rs lines 642-648):
the accumulated bytes if any were read, else TcpReadError.  (The
successful `String::from_utf8` conversion is left at the byte level.) -/
def tcp_read_finish (buf : List Nat) : RustResult (List Nat) :=
  if buf.length > 0 then .ok buf else .err .TcpReadError

/-- The read loop of tcp_cmd (src/miner/avalon.rs lines 617-640) over an
event trace: `count` is the WouldBlock counter — incremented on every
WouldBlock, never reset, loop left when it reaches 3; `buf` is the
accumulation buffer; `Ok(0)` leaves the loop; any other io error returns
immediately.  An exhausted trace stands for a peer that closes after its
events. -/
def tcp_read_loop : List ReadEvent → Nat → List Nat → RustResult (List Nat)
  | [], _, buf => tcp_read_finish buf
  | .chunk bs :: rest, count, buf =>
      if bs.length = 0 then tcp_read_finish buf
      else tcp_read_loop rest count (buf ++ bs)
  | .wouldBlock :: rest, count, buf =>
      if 3 ≤ count + 1 then tcp_read_finish buf
      else tcp_read_loop rest (count + 1) buf
  | .fatal msg :: _, _, _ => .err (.StdIoError msg)

/-- tcp_cmd's waiting read (src/miner/avalon.rs lines 612-649): run the
loop with counter 0 and an empty buffer. -/
def tcp_cmd_read (events : List ReadEvent) : RustResult (List Nat) :=
  tcp_read_loop events 0 []

/-- AvalonWorkStatus (src/miner/avalon.rs lines 20-29), restricted to the
fields the embedded code paths read (the f64 telemetry fields take no part
in any claim). -/
structure AvalonWorkStatus where
  elapsed : Int
  work_status : String
  tavg : String
  work_mode : Int
deriving DecidableEq

/-- AvalonWorkStatus::is_same_work_mode (src/miner/avalon.rs lines
31-35). -/
def AvalonWorkStatus.is_same_work_mode (w : AvalonWorkStatus)
    (account : Account) : Bool :=
  w.work_mode = (if account.run_mode = "高功" then 1 else 0)

/-- Results of the network exchanges performed by the Avalon switch
sequence (src/miner/avalon.rs lines 336-366), abstracting each tcp
command round trip: account query, status query, the three pool-slot
writes (collapsed to their sequenced result), the work-mode write and the
reboot write. -/
structure AvalonSteps where
  query_account : RustResult String
  query_status : RustResult AvalonWorkStatus
  write_pool : RustResult Unit
  write_workmode : RustResult Unit
  write_reboot : RustResult Unit

/-- The free function switch_if_need of the Avalon client
(src/miner/avalon.rs lines 336-366): query the current account and work
status; when not forced, the pre-dot worker matches and the work-mode
matches, no-op; otherwise build the suffixed account (panicking on a
non-dotted-quad ip) and issue the pool writes, the work-mode write and the
reboot in order, failing on the first error. -/
def avalon_switch_if_need (st : AvalonSteps) (ip : String)
    (account : Account) (is_force : Bool) : RustResult Unit :=
  match st.query_account with
  | .err e => .err e
  | .panicked m => .panicked m
  | .ok account_result =>
    match st.query_status with
    | .err e => .err e
    | .panicked m => .panicked m
    | .ok work =>
      let worker := (split_dots account_result).headD ""
      let config_worker := (split_dots account.name).headD ""
      if is_force = false ∧ worker = config_worker
          ∧ work.is_same_work_mode account = true then
        .ok ()
      else
        match split_dots ip with
        | _ :: _ :: _c :: _d :: _ =>
          (match st.write_pool with
           | .err e => .err e
           | .panicked m => .panicked m
           | .ok _ =>
             match st.write_workmode with
             | .err e => .err e
             | .panicked m => .panicked m
             | .ok _ =>
               match st.write_reboot with
               | .err e => .err e
               | .panicked m => .panicked m
               | .ok _ => .ok ())
        | _ => .panicked "index out of bounds: ip octets"

/-- try_ping (src/miner/avalon.rs lines 827-840) with the icmp reply as an
oracle: `Ok(true)` when the device answered, PingFiledError otherwise. -/
def try_ping (ping_ok : Bool) : RustResult Bool :=
  if ping_ok then .ok true else .err .PingFiledError

/-- AvalonMiner::switch_account_if_diff (src/miner/avalon.rs lines
177-195): run switch_if_need; on Ok return Ok; on Err fall back to
try_ping, whose error (and only it) propagates via `?`, and resolve as Ok
when the ping answered.  A panic in the inner call is not caught. -/
def avalon_switch_account_if_diff (st : AvalonSteps) (ping_ok : Bool)
    (ip : String) (account : Account) (is_force : Bool) : RustResult Unit :=
  match avalon_switch_if_need st ip account is_force with
  | .ok _ => .ok ()
  | .err _ =>
    (match try_ping ping_ok with
     | .ok _ => .ok ()
     | .err e => .err e
     | .panicked m => .panicked m)
  | .panicked m => .panicked m

/-! Concrete sample data used by counterexamples and witnesses. -/

/-- The night window of the spec example: start 22:00:00 = 79200 s,
end 06:00:00 = 21600 s. -/
def nightWindow : TimeConfig :=
  { start := 79200, endT := 21600, account_type := "night" }

/-- Sample main account whose run-mode is high-power. -/
def mainAcctHigh : Account :=
  { id := 0, name := "sl002", password := "auto", pool1 := "p1",
    pool2 := "p2", pool3 := "p3", run_mode := "高功" }

/-- Sample alternate account whose run-mode is normal. -/
def altAcctNormal : Account :=
  { id := 0, name := "sl003", password := "auto", pool1 := "q1",
    pool2 := "q2", pool3 := "q3", run_mode := "普通" }

/-- Online machine whose main profile is high-power while its alternate
profile is normal. -/
def machineC1 : Machine :=
  { id := 0, account_id := 0, ip := "192.168.1.7", name := "avalon",
    status := .Online, account := mainAcctHigh,
    switch_account := some altAcctNormal,
    addition_info := "r7", run_mode := "" }

/-- The account switch_if_need dispatches for machineC1 under active
profile "main" and perf-mode 高功. -/
def dispatchedC1 : Account := { mainAcctHigh with run_mode := "高功" }

/-- Online machine used for the failure-key claims. -/
def machineC4 : Machine :=
  { id := 0, account_id := 0, ip := "192.168.1.5", name := "avalon",
    status := .Online, account := mainAcctHigh,
    switch_account := some altAcctNormal,
    addition_info := "r1", run_mode := "" }

/-- Five-task reboot batch: two successes, two distinct operation-level
errors, one join failure. -/
def rebootResultsC5 : List (TaskResult Unit) :=
  [.ok (), .opError .ReadAvalonConfigError, .ok (),
   .opError .TcpReadError, .joinError "task timed out"]

/-- A three-slot Ant config with pairwise distinct slot URLs. -/
def antConfSample : AntConfig :=
  { pools :=
      [ { url := "old1", user := "sl001.1x1", pass := "123" },
        { url := "old2", user := "sl001.1x1", pass := "123" },
        { url := "old3", user := "sl001.1x1", pass := "123" } ],
    api_listen := true, api_network := true,
    api_groups := "A:stats:pools:devs:summary:version",
    api_allow := "A:0/0,W:*",
    bitmain_fan_ctrl := false, bitmain_fan_pwm := "100",
    bitmain_use_vil := true, bitmain_freq := "675",
    bitmain_voltage := "1400", bitmain_ccdelay := "0",
    bitmain_pwth := "0", bitmain_work_mode := "0",
    bitmain_freq_level := "100" }

/-- Three caller pools with pairwise distinct URLs. -/
def poolConfigsC8 : List PoolConfig :=
  [ { url := "url1", user := "w1", password := "x" },
    { url := "url2", user := "w2", password := "x" },
    { url := "url3", user := "w3", password := "x" } ]

/-- Avalon step oracle whose first step (the account query) fails with a
tcp read error. -/
def stepsC9 : AvalonSteps :=
  { query_account := .err .TcpReadError,
    query_status := .ok { elapsed := 0, work_status := "In Work",
                          tavg := "30 31 32", work_mode := 0 },
    write_pool := .ok (), write_workmode := .ok (), write_reboot := .ok () }

end LcdCore

namespace LcdCore

/-! Helper lemmas about the ERR_MAP association-list model. -/

theorem err_lookup_insert (m : List (String × Nat)) (k : String) (v : Nat) :
    err_lookup (err_insert m k v) k = v := by
  induction m with
  | nil => simp [err_insert, err_lookup]
  | cons hd tl ih =>
    obtain ⟨k', v'⟩ := hd
    by_cases hk : k' = k
    · subst hk
      simp [err_insert, err_lookup]
    · simp only [err_insert, if_neg hk, err_lookup, if_neg (Ne.symm hk)]
      exact ih

theorem err_lookup_insert_ne (m : List (String × Nat)) (k k' : String)
    (v : Nat) (h : k ≠ k') :
    err_lookup (err_insert m k v) k' = err_lookup m k' := by
  induction m with
  | nil => simp [err_insert, err_lookup, Ne.symm h]
  | cons hd tl ih =>
    obtain ⟨k0, v0⟩ := hd
    by_cases hk : k0 = k
    · subst hk
      simp [err_insert, err_lookup, Ne.symm h]
    · simp only [err_insert, if_neg hk, err_lookup]
      by_cases hkk : k' = k0
      · simp [hkk]
      · simp only [if_neg hkk]
        exact ih

theorem err_lookup_process_not_mem (ips : List String) (ip : String)
    (h : ip ∉ ips) :
    ∀ m, err_lookup (process_error_ips m ips).1 ip = err_lookup m ip
      ∧ ip ∉ (process_error_ips m ips).2 := by
  induction ips with
  | nil => intro m; simp [process_error_ips]
  | cons x rest ih =>
    intro m
    have hx : ip ≠ x := fun he => h (he ▸ List.mem_cons_self x rest)
    have hrest : ip ∉ rest := fun hr => h (List.mem_cons_of_mem x hr)
    have hstep : ∀ b, err_lookup (err_insert m x b) ip = err_lookup m ip :=
      fun b => err_lookup_insert_ne m x ip b (Ne.symm hx)
    obtain ⟨ih1, ih2⟩ := ih hrest (process_error_ip m x).1
    constructor
    · show err_lookup (process_error_ips (process_error_ip m x).1 rest).1 ip
        = err_lookup m ip
      rw [ih1]
      unfold process_error_ip
      by_cases hc : 3 ≤ err_lookup m x + 1 <;> simp [hc, hstep]
    · show ip ∉ (if (process_error_ip m x).2 then
          x :: (process_error_ips (process_error_ip m x).1 rest).2
        else (process_error_ips (process_error_ip m x).1 rest).2)
      by_cases hb : (process_error_ip m x).2 <;> simp [hb]
      · exact ⟨hx, ih2⟩
      · exact ih2

theorem process_error_ips_append (xs ys : List String) :
    ∀ m, process_error_ips m (xs ++ ys)
      = ((process_error_ips (process_error_ips m xs).1 ys).1,
         (process_error_ips m xs).2
           ++ (process_error_ips (process_error_ips m xs).1 ys).2) := by
  induction xs with
  | nil => intro m; simp [process_error_ips]
  | cons x rest ih =>
    intro m
    simp only [List.cons_append, process_error_ips, List.append_eq]
    rw [ih]
    by_cases hb : (process_error_ip m x).2 <;> simp [hb]

/-! Claim C10. -/

/-- C10: TimeWindow membership handles wrap-around: for every window with
start < end, a time t is a member iff start ≤ t ≤ end; for every window
with start > end (spanning midnight), t is a member iff t ≥ start or
t ≤ end. -/
theorem C10_time_window_membership (c : TimeConfig) (t : Nat) :
    (c.start < c.endT →
      ((c.now_account t).isSome ↔ (c.start ≤ t ∧ t ≤ c.endT)))
    ∧ (c.start > c.endT →
      ((c.now_account t).isSome ↔ (t ≥ c.start ∨ t ≤ c.endT))) := by
  constructor
  · intro hlt
    unfold TimeConfig.now_account
    constructor
    · intro h
      by_cases hc : (c.start < c.endT ∧ t ≥ c.start ∧ t ≤ c.endT)
          ∨ (c.start > c.endT ∧ (t ≥ c.start ∨ t ≤ c.endT))
      · rcases hc with ⟨_, h1, h2⟩ | ⟨hgt, _⟩
        · exact ⟨h1, h2⟩
        · exact absurd hgt (not_lt.mpr (le_of_lt hlt))
      · simp [hc] at h
    · intro h12
      have hor : (c.start < c.endT ∧ t ≥ c.start ∧ t ≤ c.endT)
          ∨ (c.start > c.endT ∧ (t ≥ c.start ∨ t ≤ c.endT)) :=
        Or.inl ⟨hlt, h12.1, h12.2⟩
      simp [hor]
  · intro hgt
    unfold TimeConfig.now_account
    constructor
    · intro h
      by_cases hc : (c.start < c.endT ∧ t ≥ c.start ∧ t ≤ c.endT)
          ∨ (c.start > c.endT ∧ (t ≥ c.start ∨ t ≤ c.endT))
      · rcases hc with ⟨hlt, _⟩ | ⟨_, h2⟩
        · exact absurd hlt (not_lt.mpr (le_of_lt hgt))
        · exact h2
      · simp [hc] at h
    · intro h
      have hor : (c.start < c.endT ∧ t ≥ c.start ∧ t ≤ c.endT)
          ∨ (c.start > c.endT ∧ (t ≥ c.start ∨ t ≤ c.endT)) :=
        Or.inr ⟨hgt, h⟩
      simp [hor]

/-- C10 witness: the night window {22:00:00, 06:00:00} (start 79200 > end
21600) matches 23:30:00 = 84600 s and 03:00:00 = 10800 s, and does not
match 12:00:00 = 43200 s. -/
theorem C10_time_window_membership_witness :
    nightWindow.start > nightWindow.endT
    ∧ ((nightWindow.now_account 84600).isSome
        ↔ (84600 ≥ nightWindow.start ∨ 84600 ≤ nightWindow.endT))
    ∧ (nightWindow.now_account 84600).isSome = true
    ∧ (nightWindow.now_account 10800).isSome = true
    ∧ (nightWindow.now_account 43200).isSome = false :=
  ⟨by decide,
   (C10_time_window_membership nightWindow 84600).2 (by decide),
   by decide, by decide, by decide⟩

/-! Claim C2. -/

/-- C2: the per-IP debounce: a cycle in which an IP fails (among any other
failing IPs) increments its counter by one and, when the counter reaches
3, selects the IP for exactly one alert and resets the counter to 0;
concretely, starting from a counter of 0, failing cycles 1 and 2 alert
nothing, cycle 3 emits exactly one alert for that IP and resets the
counter, a 4th and a 5th consecutive failure alert nothing, and the 6th
failure alerts again. -/
theorem C2_debounce_threshold (m0 : List (String × Nat)) (ip : String)
    (h : err_lookup m0 ip = 0) :
    (∀ (m : List (String × Nat)) (pre post : List String),
      ip ∉ pre → ip ∉ post →
      (err_lookup m ip + 1 < 3 →
        err_lookup (switch_cycle_debounce m (pre ++ ip :: post)).1 ip
            = err_lookup m ip + 1
          ∧ ip ∉ (switch_cycle_debounce m (pre ++ ip :: post)).2)
      ∧ (3 ≤ err_lookup m ip + 1 →
        err_lookup (switch_cycle_debounce m (pre ++ ip :: post)).1 ip = 0
          ∧ (switch_cycle_debounce m (pre ++ ip :: post)).2.count ip = 1))
    ∧ (let s1 := switch_cycle_debounce m0 [ip]
       let s2 := switch_cycle_debounce s1.1 [ip]
       let s3 := switch_cycle_debounce s2.1 [ip]
       let s4 := switch_cycle_debounce s3.1 [ip]
       let s5 := switch_cycle_debounce s4.1 [ip]
       let s6 := switch_cycle_debounce s5.1 [ip]
       s1.2 = [] ∧ s2.2 = [] ∧ s3.2 = [ip] ∧ err_lookup s3.1 ip = 0
         ∧ s4.2 = [] ∧ s5.2 = [] ∧ s6.2 = [ip]) := by
  have step : ∀ m : List (String × Nat),
      (err_lookup m ip + 1 < 3 →
        err_lookup (switch_cycle_debounce m [ip]).1 ip = err_lookup m ip + 1
          ∧ (switch_cycle_debounce m [ip]).2 = [])
      ∧ (3 ≤ err_lookup m ip + 1 →
        err_lookup (switch_cycle_debounce m [ip]).1 ip = 0
          ∧ (switch_cycle_debounce m [ip]).2 = [ip]) := by
    intro m
    constructor
    · intro hlt
      have hc : ¬ 3 ≤ err_lookup m ip + 1 := not_le.mpr hlt
      simp [switch_cycle_debounce, process_error_ips, process_error_ip, hc,
        err_lookup_insert]
    · intro hge
      simp [switch_cycle_debounce, process_error_ips, process_error_ip, hge,
        err_lookup_insert]
  have genstep : ∀ (m : List (String × Nat)) (pre post : List String),
      ip ∉ pre → ip ∉ post →
      (err_lookup m ip + 1 < 3 →
        err_lookup (switch_cycle_debounce m (pre ++ ip :: post)).1 ip
            = err_lookup m ip + 1
          ∧ ip ∉ (switch_cycle_debounce m (pre ++ ip :: post)).2)
      ∧ (3 ≤ err_lookup m ip + 1 →
        err_lookup (switch_cycle_debounce m (pre ++ ip :: post)).1 ip = 0
          ∧ (switch_cycle_debounce m (pre ++ ip :: post)).2.count ip = 1) := by
    intro m pre post hpre hpost
    have hlen : (pre ++ ip :: post).length > 0 := by simp
    have hA := err_lookup_process_not_mem pre ip hpre m
    constructor
    · intro hlt
      have hc : ¬ 3 ≤ err_lookup (process_error_ips m pre).1 ip + 1 := by
        rw [hA.1]
        omega
      have hB := err_lookup_process_not_mem post ip hpost
        (err_insert (process_error_ips m pre).1 ip
          (err_lookup (process_error_ips m pre).1 ip + 1))
      unfold switch_cycle_debounce
      rw [if_pos hlen, process_error_ips_append pre (ip :: post) m]
      simp only [process_error_ips, process_error_ip, if_neg hc]
      refine ⟨?_, ?_⟩
      · rw [hB.1, err_lookup_insert, hA.1]
      · simp only [List.mem_append]
        rintro (h1 | h2)
        · exact hA.2 h1
        · exact hB.2 h2
    · intro hge
      have hc : 3 ≤ err_lookup (process_error_ips m pre).1 ip + 1 := by
        rw [hA.1]
        omega
      have hB := err_lookup_process_not_mem post ip hpost
        (err_insert (process_error_ips m pre).1 ip 0)
      unfold switch_cycle_debounce
      rw [if_pos hlen, process_error_ips_append pre (ip :: post) m]
      simp only [process_error_ips, process_error_ip, if_pos hc]
      have hA0 : (process_error_ips m pre).2.count ip = 0 :=
        List.count_eq_zero.mpr hA.2
      refine ⟨?_, ?_⟩
      · rw [hB.1, err_lookup_insert]
      · have hB0 : (process_error_ips
            (err_insert (process_error_ips m pre).1 ip 0) post).2.count ip
              = 0 :=
          List.count_eq_zero.mpr hB.2
        simp [List.count_append, hA0, hB0]
  refine ⟨genstep, ?_⟩
  obtain ⟨c1lt, _⟩ := step m0
  obtain ⟨h11, h12⟩ := c1lt (by omega)
  obtain ⟨c2lt, _⟩ := step (switch_cycle_debounce m0 [ip]).1
  obtain ⟨h21, h22⟩ := c2lt (by omega)
  obtain ⟨_, c3ge⟩ := step (switch_cycle_debounce
    (switch_cycle_debounce m0 [ip]).1 [ip]).1
  obtain ⟨h31, h32⟩ := c3ge (by omega)
  obtain ⟨c4lt, _⟩ := step (switch_cycle_debounce (switch_cycle_debounce
    (switch_cycle_debounce m0 [ip]).1 [ip]).1 [ip]).1
  obtain ⟨h41, h42⟩ := c4lt (by omega)
  obtain ⟨c5lt, _⟩ := step (switch_cycle_debounce (switch_cycle_debounce
    (switch_cycle_debounce (switch_cycle_debounce m0 [ip]).1 [ip]).1
      [ip]).1 [ip]).1
  obtain ⟨h51, h52⟩ := c5lt (by omega)
  obtain ⟨_, c6ge⟩ := step (switch_cycle_debounce (switch_cycle_debounce
    (switch_cycle_debounce (switch_cycle_debounce (switch_cycle_debounce
      m0 [ip]).1 [ip]).1 [ip]).1 [ip]).1 [ip]).1
  obtain ⟨h61, h62⟩ := c6ge (by omega)
  exact ⟨h12, h22, h32, h31, h42, h52, h62⟩

/-- C2 witness: the scenario instantiated on an empty ERR_MAP and the key
of machineC4. -/
theorem C2_debounce_threshold_witness :
    err_lookup [] "[192.168.1.5-r1]" = 0
    ∧ (let s1 := switch_cycle_debounce [] ["[192.168.1.5-r1]"]
       let s2 := switch_cycle_debounce s1.1 ["[192.168.1.5-r1]"]
       let s3 := switch_cycle_debounce s2.1 ["[192.168.1.5-r1]"]
       let s4 := switch_cycle_debounce s3.1 ["[192.168.1.5-r1]"]
       let s5 := switch_cycle_debounce s4.1 ["[192.168.1.5-r1]"]
       let s6 := switch_cycle_debounce s5.1 ["[192.168.1.5-r1]"]
       s1.2 = [] ∧ s2.2 = [] ∧ s3.2 = ["[192.168.1.5-r1]"]
         ∧ err_lookup s3.1 "[192.168.1.5-r1]" = 0
         ∧ s4.2 = [] ∧ s5.2 = [] ∧ s6.2 = ["[192.168.1.5-r1]"]) :=
  ⟨rfl, (C2_debounce_threshold [] "[192.168.1.5-r1]" rfl).2⟩

/-! Claim C3. -/

/-- C3 counterexample: the claim says a successful cycle resets a device's
progress toward the alert threshold, so three failures separated by
successes never alert; but starting from an empty counter map, the cycle
sequence fail, success, fail, success, fail emits an alert for the device
on the fifth cycle. -/
theorem C3_counterexample :
    (let s1 := switch_cycle_debounce [] ["[192.168.1.5-r1]"]
     let s2 := switch_cycle_debounce s1.1 []
     let s3 := switch_cycle_debounce s2.1 ["[192.168.1.5-r1]"]
     let s4 := switch_cycle_debounce s3.1 []
     let s5 := switch_cycle_debounce s4.1 ["[192.168.1.5-r1]"]
     s1.2 = [] ∧ s2.2 = [] ∧ s3.2 = [] ∧ s4.2 = []
       ∧ s5.2 = ["[192.168.1.5-r1]"]) := by
  decide

/-- C3 amended: a cycle in which a device's key is not among the failures
leaves its counter unchanged and emits no alert for it — successes do NOT
reset the counter, so the alert fires on the third cumulative failure
(a map already holding a count of 2 alerts on the next failure), even
with intervening successes. -/
theorem C3_amended_cumulative_threshold (m : List (String × Nat))
    (ips : List String) (ip : String) (h : ip ∉ ips) :
    (err_lookup (switch_cycle_debounce m ips).1 ip = err_lookup m ip
      ∧ ip ∉ (switch_cycle_debounce m ips).2)
    ∧ (err_lookup m ip = 2 →
        (switch_cycle_debounce m [ip]).2 = [ip]) := by
  constructor
  · unfold switch_cycle_debounce
    by_cases hlen : ips.length > 0
    · simp only [hlen, if_pos]
      exact err_lookup_process_not_mem ips ip h m
    · simp [hlen]
  · intro h2
    simp [switch_cycle_debounce, process_error_ips, process_error_ip, h2]

/-- C3 amended witness: a success cycle for other devices leaves the key
of machineC4 (holding count 2) unchanged, and the next failing cycle
alerts. -/
theorem C3_amended_cumulative_threshold_witness :
    ("[192.168.1.5-r1]" : String) ∉ ["[10.0.0.2-a] "]
    ∧ ((err_lookup (switch_cycle_debounce [("[192.168.1.5-r1]", 2)]
          ["[10.0.0.2-a] "]).1 "[192.168.1.5-r1]"
        = err_lookup [("[192.168.1.5-r1]", 2)] "[192.168.1.5-r1]"
      ∧ ("[192.168.1.5-r1]" : String) ∉ (switch_cycle_debounce
          [("[192.168.1.5-r1]", 2)] ["[10.0.0.2-a] "]).2)
      ∧ (err_lookup [("[192.168.1.5-r1]", 2)] "[192.168.1.5-r1]" = 2 →
          (switch_cycle_debounce [("[192.168.1.5-r1]", 2)]
            ["[192.168.1.5-r1]"]).2 = ["[192.168.1.5-r1]"])) :=
  ⟨by decide,
   C3_amended_cumulative_threshold [("[192.168.1.5-r1]", 2)]
     ["[10.0.0.2-a] "] "[192.168.1.5-r1]" (by decide)⟩

/-! Claim C4. -/

/-- C4: the failure-counter key for one device differs between failure
kinds: an operation-level error is keyed "[ip-info]" while a join failure
is keyed "[ip-info] " (trailing space), so one device's failures split
over two counter entries; three failures of machineC4 (one operation
error, two join failures) therefore never reach the threshold and emit no
alert. -/
theorem C4_failure_key_split :
    collect_error_ips [machineC4] [.opError .TcpReadError]
      = ["[192.168.1.5-r1]"]
    ∧ collect_error_ips [machineC4] [.joinError "join failure"]
      = ["[192.168.1.5-r1] "]
    ∧ collect_error_ips [machineC4] [] = ["[192.168.1.5-r1] "]
    ∧ ("[192.168.1.5-r1]" : String) ≠ "[192.168.1.5-r1] "
    ∧ (let c1 := switch_cycle_debounce []
         (collect_error_ips [machineC4] [.opError .TcpReadError])
       let c2 := switch_cycle_debounce c1.1
         (collect_error_ips [machineC4] [.joinError "join failure"])
       let c3 := switch_cycle_debounce c2.1
         (collect_error_ips [machineC4] [.joinError "join failure"])
       c1.2 = [] ∧ c2.2 = [] ∧ c3.2 = []) := by
  refine ⟨rfl, rfl, rfl, by decide, ?_⟩
  decide

/-! Claim C1. -/

/-- C1 counterexample: the claim says the dispatched run-mode is 高功 iff
the ALTERNATE profile's run-mode and the perf window are both 高功,
regardless of which profile is active; but for machineC1 (main run-mode
高功, alternate run-mode 普通) with active profile "main" and perf 高功,
the dispatched account carries 高功 although the alternate profile says
普通. -/
theorem C1_run_mode_counterexample :
    ¬ (((switch_target "main" "高功" machineC1).map Account.run_mode
          = some "高功")
        ↔ ((machineC1.switch_account.map Account.run_mode = some "高功")
            ∧ ("高功" : String) = "高功")) := by
  decide

/-- C1 amended: for every online device with an alternate account, the
dispatched run-mode is 高功 iff both the SELECTED profile's run-mode (the
main account when the active account type is "main", the alternate
account otherwise) and the global perf window are 高功; in every other
case it is 普通. -/
theorem C1_run_mode_amended (account_type perf_mode : String)
    (mach : Machine) (sa t : Account)
    (hsa : mach.switch_account = some sa)
    (hon : mach.status = MinerStatus.Online)
    (ht : switch_target account_type perf_mode mach = some t) :
    (t.run_mode = "高功" ↔
      ((if account_type = "main" then mach.account else sa).run_mode = "高功"
        ∧ perf_mode = "高功"))
    ∧ (t.run_mode = "高功" ∨ t.run_mode = "普通") := by
  unfold switch_target at ht
  rw [hsa] at ht
  simp only [Option.isSome_some, Option.getD_some, hon, true_and] at ht
  by_cases hc : (if account_type = "main" then mach.account else sa).run_mode
      = "高功" ∧ perf_mode = "高功"
  · rw [if_pos hc] at ht
    have hteq : t = { (if account_type = "main" then mach.account else sa)
        with run_mode := "高功" } := (Option.some.inj ht).symm
    subst hteq
    exact ⟨⟨fun _ => hc, fun _ => rfl⟩, Or.inl rfl⟩
  · rw [if_neg hc] at ht
    have hteq : t = { (if account_type = "main" then mach.account else sa)
        with run_mode := "普通" } := (Option.some.inj ht).symm
    subst hteq
    refine ⟨⟨?_, ?_⟩, Or.inr rfl⟩
    · intro habs
      exact absurd (show ("普通" : String) = "高功" from habs) (by decide)
    · intro hboth
      exact absurd hboth hc

/-- C1 amended witness: for machineC1 under active profile "main" and
perf 高功, the dispatched account is the main account upgraded to 高功,
and the amended iff holds. -/
theorem C1_run_mode_amended_witness :
    machineC1.switch_account = some altAcctNormal
    ∧ machineC1.status = MinerStatus.Online
    ∧ switch_target "main" "高功" machineC1 = some dispatchedC1
    ∧ ((dispatchedC1.run_mode = "高功" ↔
        ((if ("main" : String) = "main" then machineC1.account
          else altAcctNormal).run_mode = "高功"
          ∧ ("高功" : String) = "高功"))
      ∧ (dispatchedC1.run_mode = "高功" ∨ dispatchedC1.run_mode = "普通")) :=
  ⟨rfl, rfl, by decide,
   C1_run_mode_amended "main" "高功" machineC1 altAcctNormal dispatchedC1
     rfl rfl (by decide)⟩

/-! Claim C5. -/

/-- C5 counterexample: the claim says rebootBatch over 5 IPs with 2
successes, 2 protocol errors and 1 task failure reports exactly 3
failures with distinct reasons; but reboot_batch discards the joined
results and returns Ok(()) — its result on that batch carries no failures
and is indistinguishable from an all-success batch. -/
theorem C5_reboot_batch_counterexample :
    reboot_batch_agg rebootResultsC5 = Except.ok ()
    ∧ reboot_batch_agg rebootResultsC5
      = reboot_batch_agg [.ok (), .ok (), .ok (), .ok (), .ok ()] :=
  ⟨rfl, rfl⟩

/-- C5 amended: each joined task outcome is classified as success,
operation-level error or task-level join failure; scan/watching keep
exactly the successes, and a failing task anywhere in the batch never
perturbs the collected successes of the others; reboot_batch, however,
discards all outcomes and returns unit success, reporting no failures. -/
theorem C5_batch_partition_amended {α : Type}
    (pre post : List (TaskResult α)) (e : MinerError) (j : String)
    (ru : List (TaskResult Unit)) :
    scan_collect (pre ++ .opError e :: post) = scan_collect (pre ++ post)
    ∧ scan_collect (pre ++ .joinError j :: post) = scan_collect (pre ++ post)
    ∧ reboot_batch_agg ru = Except.ok () := by
  refine ⟨?_, ?_, rfl⟩ <;>
  · induction pre with
    | nil => simp [scan_collect]
    | cons hd tl ih =>
      cases hd <;> simp [scan_collect, ih]

/-! Claim C6. -/

/-- C6 counterexample: the claim says every operation returns a typed
error rather than panicking; but the vendor-name conversion panics on
"foo", and AntConfig::apply_account panics on the non-dotted-quad IP
"localhost". -/
theorem C6_no_panic_counterexample :
    minerType_from_str "foo" = .panicked "MinerType not support"
    ∧ AntConfig.apply_account antConfSample mainAcctHigh "localhost"
      = .panicked "index out of bounds: ip octets" :=
  ⟨rfl, rfl⟩

/-- C6 amended: the detect chain does return the typed
MinerNotSupportError for devices no vendor recognizes, but
`From<&str> for MinerType` panics (does not return an error) on every
vendor name outside {"ant","avalon","bluestar"}. -/
theorem C6_no_panic_amended (s : String) (headers : List String)
    (body : String)
    (h1 : s ≠ "ant") (h2 : s ≠ "avalon") (h3 : s ≠ "bluestar")
    (hh : headers.any (fun h => str_contains h "antMiner") = false)
    (hb : str_contains body "Avalon Device" = false) :
    minerType_from_str s = .panicked "MinerType not support"
    ∧ find_miner_detect headers body = .error .MinerNotSupportError := by
  constructor
  · simp [minerType_from_str, h1, h2, h3]
  · unfold find_miner_detect AntMiner.detect AvalonMiner.detect
      BlueStarMiner.detect
    by_cases hlen : headers.length < 1 <;> simp [hlen, hh, hb]

/-- C6 amended witness: vendor name "foo", an ordinary header and body
matching no vendor signature. -/
theorem C6_no_panic_amended_witness :
    (("foo" : String) ≠ "ant") ∧ (("foo" : String) ≠ "avalon")
    ∧ (("foo" : String) ≠ "bluestar")
    ∧ (["HTTP/1.1 200 OK"].any (fun h => str_contains h "antMiner") = false)
    ∧ (str_contains "hello" "Avalon Device" = false)
    ∧ (minerType_from_str "foo" = .panicked "MinerType not support"
      ∧ find_miner_detect ["HTTP/1.1 200 OK"] "hello"
        = .error .MinerNotSupportError) :=
  ⟨by decide, by decide, by decide, by decide, by decide,
   C6_no_panic_amended "foo" ["HTTP/1.1 200 OK"] "hello"
     (by decide) (by decide) (by decide) (by decide) (by decide)⟩

/-! Claim C7. -/

/-- C7 counterexample: the claim says the read loop terminates only on
peer close, on three CONSECUTIVE not-ready signals, or on timeout, and
that data in 3 chunks separated by not-ready signals is reassembled in
full; but on the trace not-ready, chunk [1], not-ready, chunk [2],
not-ready, chunk [3] — which never shows three consecutive not-ready
signals and never closes — the loop stops at the third cumulative
not-ready and returns only [1, 2], dropping the third chunk. -/
theorem C7_read_loop_counterexample :
    tcp_cmd_read [.wouldBlock, .chunk [1], .wouldBlock, .chunk [2],
        .wouldBlock, .chunk [3]]
      = .ok [1, 2]
    ∧ (RustResult.ok [1, 2] : RustResult (List Nat)) ≠ .ok [1, 2, 3] :=
  ⟨rfl, by decide⟩

/-- C7 amended: the WouldBlock counter is cumulative (never reset by a
successful read): a transport delivering three chunks with at most two
not-ready signals interspersed is reassembled in full, and a transport
that only ever signals not-ready (zero bytes, never closing) fails with
the dedicated TcpReadError once the third not-ready arrives. -/
theorem C7_read_loop_amended (c1 c2 c3 : List Nat) (n : Nat)
    (h1 : c1 ≠ []) (h2 : c2 ≠ []) (h3 : c3 ≠ []) (hn : 3 ≤ n) :
    tcp_cmd_read [.chunk c1, .wouldBlock, .chunk c2, .wouldBlock, .chunk c3]
      = .ok (c1 ++ c2 ++ c3)
    ∧ tcp_cmd_read (List.replicate n .wouldBlock) = .err .TcpReadError := by
  constructor
  · have l1 : ¬ c1.length = 0 := by simpa using h1
    have l2 : ¬ c2.length = 0 := by simpa using h2
    have l3 : ¬ c3.length = 0 := by simpa using h3
    have lp : 0 < (c1 ++ c2 ++ c3).length := by
      simp only [List.length_append]
      omega
    simp [tcp_cmd_read, tcp_read_loop, tcp_read_finish, l1, l2, l3, lp]
  · obtain ⟨m, rfl⟩ : ∃ m, n = m + 3 := ⟨n - 3, by omega⟩
    have hrep : List.replicate (m + 3) ReadEvent.wouldBlock
        = .wouldBlock :: .wouldBlock :: .wouldBlock
          :: List.replicate m .wouldBlock := by
      simp [List.replicate_succ]
    rw [hrep]
    simp [tcp_cmd_read, tcp_read_loop, tcp_read_finish]

/-- C7 amended witness: three one-byte chunks with two interspersed
not-ready signals, and a three-not-ready starving transport. -/
theorem C7_read_loop_amended_witness :
    (([72] : List Nat) ≠ []) ∧ (([101] : List Nat) ≠ [])
    ∧ (([33] : List Nat) ≠ []) ∧ 3 ≤ 3
    ∧ (tcp_cmd_read [.chunk [72], .wouldBlock, .chunk [101], .wouldBlock,
          .chunk [33]]
        = .ok ([72] ++ [101] ++ [33])
      ∧ tcp_cmd_read (List.replicate 3 .wouldBlock) = .err .TcpReadError) :=
  ⟨by decide, by decide, by decide, by decide,
   C7_read_loop_amended [72] [101] [33] 3
     (by decide) (by decide) (by decide) (by decide)⟩

/-! Claim C8. -/

theorem apply_account_slot3_eq_slot2 (conf conf1 : AntConfig) (a : Account)
    (ip : String) (h : conf.apply_account a ip = .ok conf1) :
    (conf1.pools.get? 2).map Pool.url = (conf1.pools.get? 1).map Pool.url
    ∧ (conf1.pools.get? 1).map Pool.url = some a.pool2 := by
  unfold AntConfig.apply_account at h
  split at h
  · split at h
    · injection h with h'
      subst h'
      simp
    · exact RustResult.noConfusion h
  · exact RustResult.noConfusion h

theorem ant_switch_write_path (conf conf1 : AntConfig) (a : Account)
    (ip : String) (is_force : Bool)
    (h : ant_switch_account_if_diff conf a ip is_force = .ok (some conf1)) :
    conf.apply_account a ip = .ok conf1 := by
  unfold ant_switch_account_if_diff at h
  by_cases hf : is_force
  · rw [if_pos hf] at h
    rcases ha : conf.apply_account a ip with x | e | msg
    · rw [ha] at h
      simp only [RustResult.map] at h
      injection h with h'
      injection h' with h''
      rw [h'']
    · rw [ha] at h
      simp only [RustResult.map] at h
      exact RustResult.noConfusion h
    · rw [ha] at h
      simp only [RustResult.map] at h
      exact RustResult.noConfusion h
  · rw [if_neg hf] at h
    rcases hsame : conf.is_same_account a with b | e | msg
    · rw [hsame] at h
      cases b
      · rcases ha : conf.apply_account a ip with x | e | msg
        · rw [ha] at h
          simp only [RustResult.map] at h
          injection h with h'
          injection h' with h''
          rw [h'']
        · rw [ha] at h
          simp only [RustResult.map] at h
          exact RustResult.noConfusion h
        · rw [ha] at h
          simp only [RustResult.map] at h
          exact RustResult.noConfusion h
      · injection h with h'
        exact Option.noConfusion h'
    · rw [hsame] at h
      exact RustResult.noConfusion h
    · rw [hsame] at h
      exact RustResult.noConfusion h

theorem apply_config_pools_positional (conf conf2 : AntConfig)
    (p1 p2 p3 : PoolConfig) (ip : String)
    (h : conf.apply_config_pools [p1, p2, p3] ip = .ok conf2) :
    (conf2.pools.get? 1).map Pool.url = some p2.url
    ∧ (conf2.pools.get? 2).map Pool.url = some p3.url := by
  unfold AntConfig.apply_config_pools at h
  split at h
  · rcases hp : conf.pools with _ | ⟨q0, _ | ⟨q1, _ | ⟨q2, qrest⟩⟩⟩ <;>
        rw [hp] at h <;>
        simp [apply_config_pools_loop, RustResult.map] at h
    subst h
    simp
  · exact RustResult.noConfusion h

/-- C8 counterexample: the claim says pool slot 3's URL equals slot 2's
URL after configurePools as well; but apply_config_pools writes the three
slots positionally, so with caller URLs url1, url2, url3 slot 2 holds
url2 while slot 3 holds url3. -/
theorem C8_slot3_counterexample :
    (AntConfig.apply_config_pools antConfSample poolConfigsC8
        "192.168.190.8").map
      (fun c => ((c.pools.get? 1).map Pool.url, (c.pools.get? 2).map Pool.url))
      = .ok (some "url2", some "url3")
    ∧ (some "url2" : Option String) ≠ some "url3" :=
  ⟨rfl, by decide⟩

/-- C8 amended: after the write path of Ant switch_account_if_diff (a
config is actually applied and pushed), slot 3's URL equals slot 2's URL,
and both equal the account's pool2 (the preserved source quirk); after
apply_config_pools with three caller pools, the slots are positional:
slot 2 holds the second caller URL and slot 3 the third. -/
theorem C8_slot3_amended (conf conf1 conf2 : AntConfig) (a : Account)
    (ip : String) (is_force : Bool) (p1 p2 p3 : PoolConfig)
    (h1 : ant_switch_account_if_diff conf a ip is_force = .ok (some conf1))
    (h2 : conf.apply_config_pools [p1, p2, p3] ip = .ok conf2) :
    ((conf1.pools.get? 2).map Pool.url = (conf1.pools.get? 1).map Pool.url
      ∧ (conf1.pools.get? 1).map Pool.url = some a.pool2)
    ∧ ((conf2.pools.get? 1).map Pool.url = some p2.url
      ∧ (conf2.pools.get? 2).map Pool.url = some p3.url) :=
  ⟨apply_account_slot3_eq_slot2 conf conf1 a ip
    (ant_switch_write_path conf conf1 a ip is_force h1),
   apply_config_pools_positional conf conf2 p1 p2 p3 ip h2⟩

/-- The config that the forced switch of mainAcctHigh writes to
antConfSample at 192.168.190.8. -/
def antConfAfterSwitch : AntConfig :=
  { antConfSample with pools :=
      [ { url := "p1", user := "sl002.190x8", pass := "auto" },
        { url := "p2", user := "sl002.190x8", pass := "auto" },
        { url := "p2", user := "sl002.190x8", pass := "auto" } ] }

/-- The config that apply_config_pools writes to antConfSample at
192.168.190.8 from poolConfigsC8. -/
def antConfAfterPools : AntConfig :=
  { antConfSample with pools :=
      [ { url := "url1", user := "w1.190x8", pass := "x" },
        { url := "url2", user := "w2.190x8", pass := "x" },
        { url := "url3", user := "w3.190x8", pass := "x" } ] }

/-- C8 amended witness: a forced switch of mainAcctHigh and a three-pool
reconfiguration of antConfSample at 192.168.190.8. -/
theorem C8_slot3_amended_witness :
    ant_switch_account_if_diff antConfSample mainAcctHigh "192.168.190.8"
        true = .ok (some antConfAfterSwitch)
    ∧ AntConfig.apply_config_pools antConfSample poolConfigsC8
        "192.168.190.8" = .ok antConfAfterPools
    ∧ (((antConfAfterSwitch.pools.get? 2).map Pool.url
          = (antConfAfterSwitch.pools.get? 1).map Pool.url
        ∧ (antConfAfterSwitch.pools.get? 1).map Pool.url
          = some mainAcctHigh.pool2)
      ∧ ((antConfAfterPools.pools.get? 1).map Pool.url = some "url2"
        ∧ (antConfAfterPools.pools.get? 2).map Pool.url = some "url3")) :=
  ⟨rfl, rfl,
   C8_slot3_amended antConfSample antConfAfterSwitch antConfAfterPools
     mainAcctHigh "192.168.190.8" true
     { url := "url1", user := "w1", password := "x" }
     { url := "url2", user := "w2", password := "x" }
     { url := "url3", user := "w3", password := "x" }
     rfl rfl⟩

/-! Claim C9. -/

/-- C9: whenever the Avalon switch sequence fails at any step (its result
is an error), switch_account_if_diff falls back to the ping probe: a
successful ping resolves the whole operation as Ok, a failed ping yields
the dedicated PingFiledError. -/
theorem C9_ping_fallback (st : AvalonSteps) (ping_ok : Bool) (ip : String)
    (a : Account) (is_force : Bool) (e : MinerError)
    (h : avalon_switch_if_need st ip a is_force = .err e) :
    avalon_switch_account_if_diff st ping_ok ip a is_force
      = (if ping_ok then .ok () else .err .PingFiledError) := by
  unfold avalon_switch_account_if_diff try_ping
  rw [h]
  by_cases hp : ping_ok <;> simp [hp]

/-- C9 witness: a step oracle whose account query fails with a tcp read
error; with the ping also failing, the operation returns PingFiledError. -/
theorem C9_ping_fallback_witness :
    avalon_switch_if_need stepsC9 "192.168.1.9" mainAcctHigh false
      = .err .TcpReadError
    ∧ avalon_switch_account_if_diff stepsC9 false "192.168.1.9"
        mainAcctHigh false
      = (if (false : Bool) then .ok () else .err .PingFiledError) :=
  ⟨rfl,
   C9_ping_fallback stepsC9 false "192.168.1.9" mainAcctHigh false
     .TcpReadError rfl⟩

end LcdCore
